import Mathlib

/-!
Shallow embedding of `src/model/modules.py` (transformer building blocks:
GEGLU, MLP, MultiQueryAttention, MultiAxisAttention, EncoderBlock,
TransformerBlock, MultiAxisTransformerBlock) and proofs of the claims
about it.

Modelling conventions:
* Machine floats are modelled by `ℝ` (the numerical contracts are about
  exact arithmetic; tolerances are handled in the statements).
* A tensor's last dimension is modelled by `List ℝ` where elementwise
  contracts are at stake; abstract tensor types with abstract operation
  parameters are used where the control flow (assertions, exceptions,
  branch selection) is the property in question.
* Python runtime failures (TypeError, AttributeError, AssertionError) are
  modelled by `Except PyErr`.
* Python attribute existence (`hasattr`, attribute access on `self`,
  method access on `super()`) is modelled by membership of the attribute
  name in the list of attribute names the object actually has, as
  determined from the source and the PyTorch API.
-/

/-- The Python runtime errors this file's control flow can raise. -/
inductive PyErr where
  | typeError
  | attributeError
  | assertionError
  deriving DecidableEq, Repr

/-- Truthiness of `None` in Python: `bool(None) = False`. -/
def pyTruthyNone : Bool := false

/-- Attribute names of `torch.nn.functional` (`F`) that are relevant here.
The real module exposes the correctly spelled
`scaled_dot_product_attention`, `softmax`, `dropout`, `gelu`, `linear`,
`unfold`, among others; it has no attribute named
`scaled_dot_product_attnetion`. -/
def torchFunctionalAttrs : List String :=
  ["scaled_dot_product_attention", "softmax", "dropout", "gelu", "linear",
   "layer_norm", "relu", "unfold", "pad", "conv2d"]

/-- `hasattr(F, name)`. -/
def hasattrF (name : String) : Bool := torchFunctionalAttrs.contains name

/-! ## GEGLU (source lines 257-260)

```python
class GEGLU(nn.Module):
    def forward(self, x):
        x, gate = x.chunk(2, dim=-1)
        return gate * F.gelu(x, 'tanh')
```
-/

/-- The tanh approximation of GELU, as computed by
`F.gelu(·, approximate='tanh')`:
`0.5 * x * (1 + tanh(sqrt(2/pi) * (x + 0.044715 * x^3)))`. -/
noncomputable def geluTanh (x : ℝ) : ℝ :=
  0.5 * x * (1 + Real.tanh (Real.sqrt (2 / Real.pi) * (x + 0.044715 * x ^ 3)))

/-- `t.chunk(2, dim=-1)` along the last axis, which has the elements of
`l`: the first chunk gets `⌈n/2⌉` elements, the second the rest. -/
def torchChunk2 (l : List ℝ) : List ℝ × List ℝ :=
  (l.take ((l.length + 1) / 2), l.drop ((l.length + 1) / 2))

/-- The positional parameters of PyTorch's `F.gelu`. Its native schema is
`gelu(Tensor self, *, str approximate='none')`: the `*` marker makes
`approximate` keyword-only, so the input tensor is the one and only
positional parameter. -/
def fGeluPositionalParams : List String := ["self"]

/-- Python's positional-arity check when calling a function whose
positional parameters are `params` with `n` positional arguments: more
arguments than parameters is a `TypeError`, raised before the function
body runs. -/
def pyPositionalCallOk (params : List String) (n : ℕ) : Bool :=
  n ≤ params.length

/-- The call `F.gelu(x, 'tanh')` of source line 260: two positional
arguments against the one positional parameter of
`gelu(Tensor self, *, str approximate='none')`, so the arity check
fails and the call raises `TypeError` without computing any GELU. (Had
the second argument been accepted as `approximate='tanh'`, the result
would have been the elementwise `geluTanh` of `x`.) -/
noncomputable def fGeluPositionalTanh (x : List ℝ) : Except PyErr (List ℝ) :=
  if pyPositionalCallOk fGeluPositionalParams 2 then .ok (x.map geluTanh)
  else .error .typeError

/-- `GEGLU.forward` on one last-axis fibre of the input tensor:
split into `x` (first half) and `gate` (second half), then evaluate
`gate * F.gelu(x, 'tanh')` — the `F.gelu` call passes `'tanh'`
positionally, so it raises `TypeError`; the elementwise product with
the gate is never reached. -/
noncomputable def GEGLU.forward (l : List ℝ) : Except PyErr (List ℝ) :=
  let p := torchChunk2 l
  match fGeluPositionalTanh p.1 with
  | .error e => .error e
  | .ok g => .ok (List.zipWith (fun gi yi => gi * yi) p.2 g)

/-! ## Block compositions (source lines 11-87)

`EncoderBlock.forward`:
```python
x = input + self.self_attn(self.ln1(input))
x = self.mlp(x)
return x
```
`TransformerBlock.forward`:
```python
x = input + self.self_attn(self.ln1(input))
if context is not None:
    x = x + self.cross_attn(self.ln2(x), context)
x = self.mlp(x)
return x
```
The sub-modules (layer norms, attentions, MLP) are learned maps held by
the block; they are modelled as fields of function type, so the theorems
quantify over every possible instantiation of the sub-modules. -/

/-- `EncoderBlock`: the sub-modules created in `__init__`. -/
structure EncoderBlockM (V : Type) where
  ln1 : V → V
  self_attn : V → V
  mlp : V → V

/-- `EncoderBlock.forward` (source lines 29-32). -/
def EncoderBlockM.forward [Add V] (b : EncoderBlockM V) (input : V) : V :=
  let x := input + b.self_attn (b.ln1 input)
  let x := b.mlp x
  x

/-- `TransformerBlock`: the sub-modules created in `__init__`.
`cross_attn` takes the query source and the context. -/
structure TransformerBlockM (V : Type) where
  ln1 : V → V
  self_attn : V → V
  ln2 : V → V
  cross_attn : V → V → V
  mlp : V → V

/-- `TransformerBlock.forward` (source lines 82-87); `context` is the
optional encoder output. -/
def TransformerBlockM.forward [Add V] (b : TransformerBlockM V)
    (input : V) (context : Option V) : V :=
  let x := input + b.self_attn (b.ln1 input)
  let x := match context with
    | some ctx => x + b.cross_attn (b.ln2 x) ctx
    | none => x
  let x := b.mlp x
  x

/-! ## MultiQueryAttention (source lines 116-165)

```python
def __init__(self, emb_dim, nhead, dropout):
    ...
    self.scale = (emb_dim // nhead) ** -0.5
    self.to_q = nn.Linear(emb_dim, emb_dim, bias=False)
    self.to_kv = nn.Linear(emb_dim, 2 * emb_dim // nhead, bias=False)
    self.to_o = nn.Linear(emb_dim, emb_dim, bias=False)
    self.dropout = dropout
    self.attn_dropout = nn.Dropout(dropout)
    self.flash = hasattr(F, 'scaled_dot_product_attnetion')

def forward(self, input, context=None):
    h = self.nhead
    context = context if not None else input
    q, k, v = (self.to_q(input), *self.to_kv(context).chunk(2, dim=-1))
    q = rearrange(q, "b ... (h d) -> b h ... d", h=h) * self.scale
    if self.flash:
        y = F.scaled_dot_product_attention(q, k, v,
              dropout_p=self.dropout if self.training else 0.0,
              is_causal=False)
    else:
        sim = torch.einsum("b ... n d, b t d -> b ... n t", q, k)
        att = self.attn_dropoutdropout(sim.softmax(dim=-1))
        y = torch.einsum("b ... n t, b t d -> b ... n d", att, v)
    y = rearrange(y, "b h ... d -> b ... (h d)")
    return self.to_o(y)
```

The attention arithmetic runs on tensors of an abstract type `T`, with the
library operations (`chunk`, `rearrange`, `einsum`, `softmax`, fused
attention) supplied as an abstract operation record: every theorem below
quantifies over all interpretations of those operations, so nothing
depends on a particular tensor semantics. -/

/-- `(emb_dim // nhead) ** -0.5` (Python integer floor division, then
float power). -/
noncomputable def mqaScale (emb_dim nhead : ℕ) : ℝ :=
  ((emb_dim / nhead : ℕ) : ℝ) ^ (-(1 / 2) : ℝ)

/-- The tensor-library operations `MultiQueryAttention.forward` invokes,
abstracted over the tensor type `T`. -/
structure MQATorchOps (T : Type) where
  /-- `t.chunk(2, dim=-1)`. -/
  chunk2 : T → T × T
  /-- `rearrange(q, "b ... (h d) -> b h ... d", h=h)`. -/
  rearrangeHeads : ℕ → T → T
  /-- scalar multiplication `t * s`. -/
  smul : ℝ → T → T
  /-- `F.scaled_dot_product_attention(q, k, v, dropout_p, is_causal=False)`. -/
  sdpa : T → T → T → ℝ → T
  /-- `torch.einsum("b ... n d, b t d -> b ... n t", q, k)`. -/
  einsumQK : T → T → T
  /-- `sim.softmax(dim=-1)`. -/
  softmax : T → T
  /-- `torch.einsum("b ... n t, b t d -> b ... n d", att, v)`. -/
  einsumAV : T → T → T
  /-- `rearrange(y, "b h ... d -> b ... (h d)")`. -/
  rearrangeMerge : T → T

/-- The state of a constructed `MultiQueryAttention` module: the fields
assigned in `__init__`, plus `nn.Module`'s `training` flag. -/
structure MQA (T : Type) where
  nhead : ℕ
  emb_dim : ℕ
  scale : ℝ
  to_q : T → T
  to_kv : T → T
  to_o : T → T
  dropout : ℝ
  attn_dropout : T → T
  flash : Bool
  training : Bool

/-- `MultiQueryAttention.__init__`: caches the sizes, builds the three
bias-free projections (abstract linear maps `to_q`, `to_kv`, `to_o`) and
the dropout module, and sets `flash = hasattr(F, 'scaled_dot_product_attnetion')`
— note the misspelling, taken verbatim from the source. A fresh
`nn.Module` is in training mode. -/
noncomputable def MQA.init (emb_dim nhead : ℕ) (dropout : ℝ)
    (to_q to_kv to_o attn_dropout : T → T) : MQA T :=
  { nhead := nhead
    emb_dim := emb_dim
    scale := mqaScale emb_dim nhead
    to_q := to_q
    to_kv := to_kv
    to_o := to_o
    dropout := dropout
    attn_dropout := attn_dropout
    flash := hasattrF "scaled_dot_product_attnetion"
    training := true }

/-- The attribute names a `MultiQueryAttention` instance actually has
(the fields assigned in `__init__`, plus the inherited `training` flag).
There is no attribute named `attn_dropoutdropout`. -/
def mqaAttrNames : List String :=
  ["nhead", "emb_dim", "scale", "to_q", "to_kv", "to_o",
   "dropout", "attn_dropout", "flash", "training"]

/-- `hasattr` on a `MultiQueryAttention` instance. -/
def mqaHasattr (name : String) : Bool := mqaAttrNames.contains name

/-- Applying an `nn.Linear` to a Python value that may be `None`:
`F.linear(None, w)` raises a `TypeError`. -/
def linearApplyOpt (f : T → T) : Option T → Except PyErr T
  | none => .error .typeError
  | some t => .ok (f t)

/-- `MultiQueryAttention.forward` (source lines 148-165), step by step:
line 150 `context = context if not None else input` — the condition is
`not None`, which is `True`, so `context` is left unchanged (in
particular it stays `None` when absent); line 152 applies `to_q` to the
input and `to_kv` to `context` (a `TypeError` if `context` is `None`)
and chunks the result in two; line 153 reshapes the queries into heads
and scales them; then either the fused branch (if `self.flash`) or the
explicit einsum branch, whose line 160 accesses the nonexistent
attribute `self.attn_dropoutdropout` (an `AttributeError` when
reached); finally head-merge and output projection. -/
def MQA.forward (ops : MQATorchOps T) (m : MQA T)
    (input : T) (context : Option T) : Except PyErr T :=
  let h := m.nhead
  let context := if !pyTruthyNone then context else some input
  let q := m.to_q input
  match linearApplyOpt m.to_kv context with
  | .error e => .error e
  | .ok kv =>
    let kvp := ops.chunk2 kv
    let k := kvp.1
    let v := kvp.2
    let q := ops.smul m.scale (ops.rearrangeHeads h q)
    if m.flash then
      let y := ops.sdpa q k v (if m.training then m.dropout else 0)
      .ok (m.to_o (ops.rearrangeMerge y))
    else
      let sim := ops.einsumQK q k
      if mqaHasattr "attn_dropoutdropout" then
        let att := m.attn_dropout (ops.softmax sim)
        .ok (m.to_o (ops.rearrangeMerge (ops.einsumAV att v)))
      else
        .error .attributeError

/-! ## MultiAxisAttention (source lines 167-236)

```python
def __init__(self, nchannels, block_size, nhead, dropout):
    ...
    self.blocker = nn.Unfold(block_size, stride=block_size)
    self.scale = (nchannels // nhead) ** -0.5
    self.to_qkv = nn.Linear(nchannels, 3 * nchannels, bias=False)
    self.to_o = nn.Linear(nchannels, nchannels, bias=False)
    self.flash = hasattr(F, 'scaled_dot_product_attnetion')
    if self.flash:
        self.dropout = dropout
    else:
        self.attn_dropout = nn.Dropout(dropout)

def forward(self, img):
    assert img.shape[2] == img.shape[3]
    assert img.shape[2] // self.block_size == self.block_size
    h = self.nhead
    c = self.nchannels
    img_blocks = self.blocker(img)
    img_blocks = map(lambda t: rearrange(t, "b (c k k) n -> b n (k k) c", c=c), (img_blocks))
    q, k, v = self.to_qkv(img_blocks).chunk(3, dim=-1)
    q, k, v = map(lambda t: rearrange(t, 'b n p (h c) -> b h n p c', h = h) * self.scale, (q, k, v))
    q, k, v = axis_splitting(q, k, v, h)
    if self.flash:
        y = F.scaled_dot_product_attention(q, k, v,
              dropout_p = self.dropout if self.training else 0.0, is_causal=False)
    else:
        sim = torch.einsum("b h n p c, b h n q c -> b h n p q", q, k)
        att = F.dropout(sim.softmax(dim=-1))
        y = torch.einsum("b h n p q, b h n q c -> b h n p c", att, v)
    y = rearrange(y, "b h n p c -> b n p (h c)")
    return y
```

Two points are taken verbatim from the source: the second assertion
compares `img.shape[2] // self.block_size` (floor division) with
`self.block_size` — it is not a divisibility test — and line 213
rebinds `img_blocks` to the value of the builtin `map(...)`, a lazy map
object (the trailing `(img_blocks)` is a parenthesised expression, not a
tuple), which line 216 then feeds to the `to_qkv` linear layer;
`F.linear` raises a `TypeError` on a non-tensor argument. -/

/-- `(nchannels // nhead) ** -0.5` (Python integer floor division, then
float power). -/
noncomputable def maaScale (nchannels nhead : ℕ) : ℝ :=
  ((nchannels / nhead : ℕ) : ℝ) ^ (-(1 / 2) : ℝ)

/-- An image tensor: its shape `(b, c, hgt, wid)` (`shape[2] = hgt`,
`shape[3] = wid`) and its payload of abstract tensor type `T`. -/
structure Img (T : Type) where
  b : ℕ
  c : ℕ
  hgt : ℕ
  wid : ℕ
  data : T

/-- A Python value that is either a tensor or a lazy `map` object (the
result of the builtin `map`, which defers its function applications). -/
inductive PyTensorOrMap (T : Type) where
  | tensor (t : T)
  | mapObj (pending : T)

/-- Applying an `nn.Linear` to a Python value: on a lazy `map` object,
`F.linear` raises `TypeError` (its argument must be a tensor). -/
def linearApplyPy (f : T → T) : PyTensorOrMap T → Except PyErr T
  | .tensor t => .ok (f t)
  | .mapObj _ => .error .typeError

/-- The tensor-library operations `MultiAxisAttention.forward` invokes,
abstracted over the tensor type `T`. -/
structure MAATorchOps (T : Type) where
  /-- `nn.Unfold(block_size, stride=block_size)` applied to the image. -/
  unfold : ℕ → Img T → T
  /-- `t.chunk(3, dim=-1)`. -/
  chunk3 : T → T × T × T
  /-- `rearrange(t, 'b n p (h c) -> b h n p c', h=h)`. -/
  rearrangeHeads : ℕ → T → T
  /-- scalar multiplication `t * s`. -/
  smul : ℝ → T → T
  /-- `torch.transpose(t, 2, 3)`. -/
  transpose23 : T → T
  /-- slicing `t[:, :h//2, ...]` and `t[:, h//2:, ...]`. -/
  sliceHeadsLo : ℕ → T → T
  sliceHeadsHi : ℕ → T → T
  /-- `torch.concat((a, b), dim=1)`. -/
  concatHeads : T → T → T
  /-- `F.scaled_dot_product_attention(q, k, v, dropout_p, is_causal=False)`. -/
  sdpa : T → T → T → ℝ → T
  /-- `torch.einsum("b h n p c, b h n q c -> b h n p q", q, k)`. -/
  einsumQK : T → T → T
  /-- `sim.softmax(dim=-1)`. -/
  softmax : T → T
  /-- `F.dropout(t)` called with all defaults (`p=0.5`, `training=True`);
  the tensor-level effect of one random draw. -/
  fDropoutDefault : T → T
  /-- `torch.einsum("b h n p q, b h n q c -> b h n p c", att, v)`. -/
  einsumAV : T → T → T
  /-- `rearrange(y, "b h n p c -> b n p (h c)")`. -/
  rearrangeMerge : T → T

/-- The state of a constructed `MultiAxisAttention` module. `dropout` is
only assigned when `flash` is true, `attn_dropout` only when it is
false; both are carried as `Option`s to mirror that. -/
structure MAA (T : Type) where
  block_size : ℕ
  nhead : ℕ
  nchannels : ℕ
  scale : ℝ
  to_qkv : T → T
  to_o : T → T
  flash : Bool
  dropout : Option ℝ
  attn_dropout : Option (T → T)
  training : Bool

/-- `MultiAxisAttention.__init__`: caches sizes and scale, builds the
projections, sets `flash = hasattr(F, 'scaled_dot_product_attnetion')`
(misspelling verbatim from the source), and assigns `dropout` or
`attn_dropout` depending on `flash`. A fresh `nn.Module` is in training
mode. -/
noncomputable def MAA.init (nchannels block_size nhead : ℕ) (dropout : ℝ)
    (to_qkv to_o : T → T) (attn_dropout : T → T) : MAA T :=
  let flash := hasattrF "scaled_dot_product_attnetion"
  { block_size := block_size
    nhead := nhead
    nchannels := nchannels
    scale := maaScale nchannels nhead
    to_qkv := to_qkv
    to_o := to_o
    flash := flash
    dropout := if flash then some dropout else none
    attn_dropout := if flash then none else some attn_dropout
    training := true }

/-- The two `assert` statements at the top of
`MultiAxisAttention.forward` (source lines 205-206), verbatim:
`img.shape[2] == img.shape[3]` and
`img.shape[2] // self.block_size == self.block_size`. -/
def maaAssertChecks (block_size hgt wid : ℕ) : Bool :=
  (hgt == wid) && (hgt / block_size == block_size)

/-- Line 217 of the source, the projection/split/scale step:
`map(lambda t: rearrange(t, 'b n p (h c) -> b h n p c', h=h) * self.scale, (q, k, v))`
— the one lambda, which multiplies by `self.scale`, is applied to the
query, the key, and the value alike. Tensors at this step are modelled
as indexed families of reals; `rearr` is the index permutation realised
by the `rearrange` pattern. -/
def maaProjSplitScale (scale : ℝ) (rearr : (ℕ → ℝ) → (ℕ → ℝ))
    (q k v : ℕ → ℝ) : (ℕ → ℝ) × (ℕ → ℝ) × (ℕ → ℝ) :=
  (fun i => rearr q i * scale,
   fun i => rearr k i * scale,
   fun i => rearr v i * scale)

/-- `axis_splitting(q, k, v, h)` (source lines 239-248): slice the head
axis in two halves, transpose axes 2 and 3 of the first half, and
concatenate back along the head axis. -/
def axis_splitting (ops : MAATorchOps T) (q k v : T) (h : ℕ) :
    T × T × T :=
  let q1 := ops.sliceHeadsLo h q
  let k1 := ops.sliceHeadsLo h k
  let v1 := ops.sliceHeadsLo h v
  let q2 := ops.sliceHeadsHi h q
  let k2 := ops.sliceHeadsHi h k
  let v2 := ops.sliceHeadsHi h v
  let q1 := ops.transpose23 q1
  let k1 := ops.transpose23 k1
  let v1 := ops.transpose23 v1
  (ops.concatHeads q1 q2, ops.concatHeads k1 k2, ops.concatHeads v1 v2)

/-- `MultiAxisAttention.forward` (source lines 203-236): the two
assertions; the `nn.Unfold` blocking; line 213, which leaves
`img_blocks` a lazy `map` object; line 216, which applies the `to_qkv`
linear layer to it (a `TypeError` for every tensor input, since the
argument is a `map` object); then — were a tensor ever to get that far —
the chunk into q/k/v, the scale step, `axis_splitting`, the fused or
explicit attention branch, and the head merge. -/
def MAA.forward (ops : MAATorchOps T) (m : MAA T) (img : Img T) :
    Except PyErr T :=
  if !(img.hgt == img.wid) then .error .assertionError
  else if !(img.hgt / m.block_size == m.block_size) then .error .assertionError
  else
    let h := m.nhead
    let blocks := ops.unfold m.block_size img
    let img_blocks : PyTensorOrMap T := .mapObj blocks
    match linearApplyPy m.to_qkv img_blocks with
    | .error e => .error e
    | .ok qkv =>
      let qkvp := ops.chunk3 qkv
      let q := ops.smul m.scale (ops.rearrangeHeads h qkvp.1)
      let k := ops.smul m.scale (ops.rearrangeHeads h qkvp.2.1)
      let v := ops.smul m.scale (ops.rearrangeHeads h qkvp.2.2)
      let qkvs := axis_splitting ops q k v h
      let q := qkvs.1
      let k := qkvs.2.1
      let v := qkvs.2.2
      if m.flash then
        let y := ops.sdpa q k v
          (if m.training then m.dropout.getD 0 else 0)
        .ok (ops.rearrangeMerge y)
      else
        let sim := ops.einsumQK q k
        let att := ops.fDropoutDefault (ops.softmax sim)
        .ok (ops.rearrangeMerge (ops.einsumAV att v))

/-! ## `F.dropout` with default arguments (source line 231)

The explicit attention branch of `MultiAxisAttention.forward` runs
`att = F.dropout(sim.softmax(dim=-1))`. The PyTorch signature is
`F.dropout(input, p=0.5, training=True, inplace=False)`; the call passes
neither `p` nor `training`, so the defaults `p=0.5` and `training=True`
apply, whatever `self.training` is. During training, each element is
independently zeroed with probability `p` and the survivors are scaled
by `1/(1-p)`; with `training=False` the input is returned unchanged.
One element's fate is modelled by the Boolean `keep` drawn from the
random source. -/

/-- The elementwise effect of `F.dropout(x, p, training)` for one draw
`keep` of the random mask. -/
noncomputable def fDropoutScalar (x p : ℝ) (training : Bool) (keep : Bool) : ℝ :=
  if training then (if keep then x / (1 - p) else 0) else x

/-- PyTorch's default dropout probability for `F.dropout`. -/
noncomputable def fDropoutDefaultP : ℝ := 0.5

/-- PyTorch's default `training` argument for `F.dropout`. -/
def fDropoutDefaultTraining : Bool := true

/-- One attention weight passing through line 231,
`F.dropout(sim.softmax(dim=-1))`: the call names no `p` and no
`training`, so the defaults are used — the module `m` is available but
its `training` flag is never consulted. -/
noncomputable def maaLine231Dropout (_m : MAA T) (att : ℝ) (keep : Bool) : ℝ :=
  fDropoutScalar att fDropoutDefaultP fDropoutDefaultTraining keep

/-! ## MultiAxisTransformerBlock.__init__ (source lines 47-54)

```python
def __init__(self, nchannels, block_size, nhead, dropout):
    super(MultiAxisTransformerBlock, self).__init()
    self.ln1 = nn.LayerNorm(nchannels)
    self.self_attn = MultiAxisAttention(nchannels, block_size, nhead, dropout)
    self.ln2 = nn.LayerNorm(nchannels)
    self.cross_attn = MultiQueryAttention(nchannels, nhead, dropout)
    self.mlp = MLP(nchannels)
```

The first statement accesses the method `__init` on the `super()` proxy.
`nn.Module` (and every class on the method-resolution order up to
`object`) defines `__init__`, `forward`, `train`, `eval`, ... but no
method named `__init`, so the attribute access raises `AttributeError`
before any of the five sub-modules is constructed. -/

/-- Method names `nn.Module` exposes (the relevant slice of its API);
there is no `__init` among them. -/
def nnModuleAttrs : List String :=
  ["__init__", "forward", "train", "eval", "parameters", "modules",
   "state_dict", "to", "cuda", "cpu", "zero_grad", "register_buffer",
   "register_parameter", "add_module", "apply", "children"]

/-- `hasattr` on the `super()` proxy of an `nn.Module` subclass. -/
def nnModuleHasattr (name : String) : Bool := nnModuleAttrs.contains name

/-- The sub-modules `MultiAxisTransformerBlock.__init__` would assign. -/
structure MATB (T : Type) where
  ln1 : T → T
  self_attn : MAA T
  ln2 : T → T
  cross_attn : MQA T
  mlp : T → T

/-- `MultiAxisTransformerBlock.__init__`, run step by step; alongside the
result it returns the list of sub-module attribute names that were
assigned before the constructor finished or raised. The first statement
is the `super().__init()` attribute access; if it fails nothing has been
created yet. -/
noncomputable def MATB.init (nchannels block_size nhead : ℕ) (dropout : ℝ)
    (ln : T → T) (lin : T → T) (drop : T → T) :
    Except PyErr (MATB T) × List String :=
  if !nnModuleHasattr "__init" then
    (.error .attributeError, [])
  else
    let ln1 := ln
    let self_attn := MAA.init nchannels block_size nhead dropout lin lin drop
    let ln2 := ln
    let cross_attn := MQA.init nchannels nhead dropout lin lin lin drop
    let mlp := lin
    (.ok { ln1 := ln1, self_attn := self_attn, ln2 := ln2,
           cross_attn := cross_attn, mlp := mlp },
     ["ln1", "self_attn", "ln2", "cross_attn", "mlp"])

/-- `module.eval()`: switch an `nn.Module` to evaluation mode, i.e. set
`training = False`. -/
noncomputable def MAA.eval (m : MAA T) : MAA T := { m with training := false }

/-! ## Claims -/

/-- C7: In `EncoderBlock` and `TransformerBlock` the residual connection
wraps only the attention sub-blocks, not the MLP: the output equals the
MLP applied to the attention branch's result (plus the cross-attention
residual in `TransformerBlock` when a context is given), with no
residual added around the MLP itself; `TransformerBlock` skips the
cross-attention step entirely when the context is `None` (its result is
then independent of the `cross_attn` sub-module); and there are
instantiations where the computed output differs from the
MLP-residual form, so the two shapes do not coincide. -/
theorem block_residual_wraps_attention_not_mlp {V : Type} [Add V]
    (eb : EncoderBlockM V) (tb : TransformerBlockM V) (input ctx : V) :
    eb.forward input = eb.mlp (input + eb.self_attn (eb.ln1 input))
    ∧ tb.forward input (some ctx)
        = tb.mlp ((input + tb.self_attn (tb.ln1 input))
            + tb.cross_attn (tb.ln2 (input + tb.self_attn (tb.ln1 input))) ctx)
    ∧ tb.forward input none = tb.mlp (input + tb.self_attn (tb.ln1 input))
    ∧ (∀ cross' : V → V → V,
        TransformerBlockM.forward { tb with cross_attn := cross' } input none
          = tb.forward input none)
    ∧ (∃ (b : EncoderBlockM ℝ) (x : ℝ),
        b.forward x
          ≠ (x + b.self_attn (b.ln1 x)) + b.mlp (x + b.self_attn (b.ln1 x))) := by
  refine ⟨rfl, rfl, rfl, fun _ => rfl, ⟨⟨id, id, id⟩, 1, ?_⟩⟩
  simp only [EncoderBlockM.forward, id]
  norm_num

/-- C8 (code_bug evaluation): every call of `GEGLU.forward` raises a
`TypeError` instead of returning `gate * gelu_tanh(x)`: line 260 is
`gate * F.gelu(x, 'tanh')`, which passes `approximate` positionally,
but PyTorch's schema `gelu(Tensor self, *, str approximate='none')`
makes `approximate` keyword-only, so the call fails its arity check
before any GELU is computed. At the spec's worked example `[1.0, 2.0]`
(so `x = [1.0]`, `gate = [2.0]`), the output the line was evidently
meant to produce — the gate half times the tanh-GELU of the x half —
is `[2.0 * geluTanh 1.0]`. -/
theorem geglu_gelu_positional_call_raises (l : List ℝ) :
    GEGLU.forward l = .error .typeError
    ∧ List.zipWith (fun g xi => g * geluTanh xi)
        (torchChunk2 [(1 : ℝ), 2]).2 (torchChunk2 [(1 : ℝ), 2]).1
      = [2 * geluTanh 1] :=
  ⟨rfl, rfl⟩

/-- C9: `MultiQueryAttention.forward` raises for every input and every
context: with `context=None`, line 150 (`context = context if not None
else input`) leaves the context `None` (the condition is the constant
`not None`), so `to_kv(None)` raises a `TypeError`; with a context
given, the fused branch is never selected (`flash` tests the misspelled
attribute `scaled_dot_product_attnetion` of `F`, so it is `False`) and
the explicit branch accesses the nonexistent attribute
`attn_dropoutdropout`, an `AttributeError`. No call path returns a
value. -/
theorem mqa_forward_always_raises {T : Type} (ops : MQATorchOps T)
    (emb_dim nhead : ℕ) (dropout : ℝ)
    (to_q to_kv to_o attn_drop : T → T) (input : T) (context : Option T) :
    ∃ e, MQA.forward ops
        (MQA.init emb_dim nhead dropout to_q to_kv to_o attn_drop)
        input context = .error e := by
  cases context with
  | none => exact ⟨.typeError, rfl⟩
  | some c => exact ⟨.attributeError, rfl⟩

/-- C10: constructing a `MultiAxisTransformerBlock` raises an
`AttributeError` for every argument tuple, before any sub-module is
created: the first statement of `__init__` accesses the nonexistent
method `__init` on `super()` (a misspelling of `__init__`), so the
returned creation log of assigned sub-modules is empty. -/
theorem matb_init_always_raises_before_submodules {T : Type}
    (nchannels block_size nhead : ℕ) (dropout : ℝ) (ln lin drop : T → T) :
    MATB.init nchannels block_size nhead dropout ln lin drop
      = (.error .attributeError, ([] : List String)) := rfl

/-- C3 (code_bug evaluation): with `context=None`,
`MultiQueryAttention.forward` does not fall back to self-attention —
line 150's condition is the constant `not None` (which is `True`), so
the context stays `None` and the key/value projection is applied to
`None`, raising a `TypeError` for every module state and every input,
instead of returning a tensor of the input's shape. -/
theorem mqa_self_attention_path_raises {T : Type} (ops : MQATorchOps T)
    (m : MQA T) (input : T) :
    MQA.forward ops m input none = .error .typeError := rfl

/-- C5 (code_bug evaluation): the dual-path equivalence is vacuous in
the code — the fused-attention capability flag of a freshly constructed
`MultiQueryAttention` is `False` (the `hasattr` check misspells
`scaled_dot_product_attention`), so the fused path can never execute,
and the only reachable path, the explicit softmax path, raises an
`AttributeError` (`attn_dropoutdropout`) for every input and context:
neither path produces an output that could be compared to the other
within any tolerance. -/
theorem mqa_dual_path_equivalence_vacuous {T : Type} (ops : MQATorchOps T)
    (emb_dim nhead : ℕ) (dropout : ℝ) (to_q to_kv to_o attn_drop : T → T) :
    (MQA.init (T := T) emb_dim nhead dropout to_q to_kv to_o attn_drop).flash
        = false
    ∧ ∀ (input context : T),
        MQA.forward ops
          (MQA.init emb_dim nhead dropout to_q to_kv to_o attn_drop)
          input (some context) = .error .attributeError :=
  ⟨rfl, fun _ _ => rfl⟩

/-- C1 (code_bug evaluation): a `(b, c, 17, 17)` image with
`block_size=4` is NOT rejected by `MultiAxisAttention.forward`'s
assertions: the second assertion compares `17 // 4` with `4` (floor
division, not a divisibility test), and `17 // 4 == 4` holds, even
though `17 % 4 ≠ 0`. The forward then proceeds past both assertions into
the tensor pipeline, where it fails with a `TypeError` at the `to_qkv`
projection (line 216 is fed the lazy `map` object of line 213) — not
with the `AssertionError` the claim requires. -/
theorem maa_17x17_block4_not_rejected {T : Type} (ops : MAATorchOps T)
    (nchannels nhead : ℕ) (dropout : ℝ) (to_qkv to_o attn_drop : T → T)
    (b c : ℕ) (data : T) :
    maaAssertChecks 4 17 17 = true
    ∧ 17 % 4 ≠ 0
    ∧ MAA.forward ops (MAA.init nchannels 4 nhead dropout to_qkv to_o attn_drop)
        ⟨b, c, 17, 17, data⟩ = .error .typeError := by
  refine ⟨by decide, by decide, ?_⟩
  simp [MAA.forward, MAA.init, linearApplyPy]

/-- C2 (code_bug evaluation): a `(1, c, 8, 8)` image with `block_size=4`
satisfies the spec's precondition (`8 % 4 = 0`), yet
`MultiAxisAttention.forward` raises an `AssertionError` on it — the
second assertion demands `8 // 4 == 4`, but `8 // 4 = 2` — so the
claimed `(b, n=4, p=16, h*c_head)` output is never produced. -/
theorem maa_8x8_block4_wrongly_rejected {T : Type} (ops : MAATorchOps T)
    (nchannels nhead : ℕ) (dropout : ℝ) (to_qkv to_o attn_drop : T → T)
    (c : ℕ) (data : T) :
    8 % 4 = 0
    ∧ maaAssertChecks 4 8 8 = false
    ∧ MAA.forward ops (MAA.init nchannels 4 nhead dropout to_qkv to_o attn_drop)
        ⟨1, c, 8, 8, data⟩ = .error .assertionError := by
  refine ⟨by decide, by decide, ?_⟩
  simp [MAA.forward, MAA.init, linearApplyPy]

/-- C4 (code_bug evaluation): line 217 of the source applies the one
lambda — which multiplies by `self.scale` — to the query, the key, and
the value alike. With `nchannels=8`, `nhead=2` the scale is
`(8 // 2) ** -0.5 = 1/2`, and a key entry and a value entry of `1.0`
come out of the projection/split/scale step as `1/2`, not `1`: the keys
and values do NOT enter the attention computation unscaled. -/
theorem maa_keys_and_values_also_scaled :
    maaScale 8 2 = 1 / 2
    ∧ (maaProjSplitScale (maaScale 8 2) id
        (fun _ => 1) (fun _ => 1) (fun _ => 1)).1 0 = 1 / 2
    ∧ (maaProjSplitScale (maaScale 8 2) id
        (fun _ => 1) (fun _ => 1) (fun _ => 1)).2.1 0 = 1 / 2
    ∧ (maaProjSplitScale (maaScale 8 2) id
        (fun _ => 1) (fun _ => 1) (fun _ => 1)).2.2 0 = 1 / 2
    ∧ ((1 : ℝ) / 2 ≠ 1) := by
  have hs : maaScale 8 2 = 1 / 2 := by
    unfold maaScale
    have h1 : ((8 / 2 : ℕ) : ℝ) = 4 := by norm_num
    rw [h1, Real.rpow_neg (by norm_num : (0 : ℝ) ≤ 4)]
    rw [← Real.sqrt_eq_rpow]
    rw [show (4 : ℝ) = 2 ^ 2 by norm_num, Real.sqrt_sq (by norm_num : (0 : ℝ) ≤ 2)]
    norm_num
  refine ⟨hs, ?_, ?_, ?_, by norm_num⟩ <;>
    simp [maaProjSplitScale, hs]

/-- C6 (code_bug evaluation): in evaluation mode (`training = False`)
the explicit attention branch of `MultiAxisAttention.forward` still
applies dropout to the attention weights: line 231 calls
`F.dropout(sim.softmax(dim=-1))` with no `p` and no `training`
argument, so PyTorch's defaults `p=0.5, training=True` govern the call
and the module's own mode flag is never consulted. For an attention
weight `1.0`, two draws of the random mask give `2.0` (kept, rescaled
by `1/(1-0.5)`) and `0.0` (dropped): the outputs of two identical calls
differ, so the branch is not deterministic outside training mode. -/
theorem maa_eval_mode_dropout_still_applied :
    (MAA.eval (MAA.init (T := ℝ) 8 4 2 (1 / 10) id id id)).training = false
    ∧ maaLine231Dropout (MAA.eval (MAA.init (T := ℝ) 8 4 2 (1 / 10) id id id))
        1 true = 2
    ∧ maaLine231Dropout (MAA.eval (MAA.init (T := ℝ) 8 4 2 (1 / 10) id id id))
        1 false = 0
    ∧ maaLine231Dropout (MAA.eval (MAA.init (T := ℝ) 8 4 2 (1 / 10) id id id))
        1 true
      ≠ maaLine231Dropout (MAA.eval (MAA.init (T := ℝ) 8 4 2 (1 / 10) id id id))
        1 false := by
  have h1 : maaLine231Dropout (MAA.eval (MAA.init (T := ℝ) 8 4 2 (1 / 10) id id id))
      1 true = 2 := by
    simp [maaLine231Dropout, fDropoutScalar, fDropoutDefaultP, fDropoutDefaultTraining]
    norm_num
  have h2 : maaLine231Dropout (MAA.eval (MAA.init (T := ℝ) 8 4 2 (1 / 10) id id id))
      1 false = 0 := by
    simp [maaLine231Dropout, fDropoutScalar, fDropoutDefaultP, fDropoutDefaultTraining]
  exact ⟨rfl, h1, h2, by rw [h1, h2]; norm_num⟩
